import Mathlib

/-!
Shallow embedding of the OPP Gen2 protocol engine
(src/mpf/platforms/opp/opp.py) and proofs about it.

The embedding keeps the source names where Lean allows it.  Command-byte
constants live in opp_rs232_intf.py, which is not part of the sources at
hand; they are modelled from the spec (section 6) as distinct bytes.  The
CRC8 function likewise lives in that file; every definition that uses it
is parametrised over the checksum function, since no behaviour proved
here depends on the checksum algorithm itself.
-/

namespace Opp

/-- Modelled from the spec: value of a Python expression as stored in the
per-driver switch list.  opp.py appends identifier strings to
`driver.hw_driver.switches` and later tests an `int` for membership in
the same list; Python equality between an int and a str is always false,
which this sum type makes explicit. -/
inductive PyVal where
  | int (n : Nat)
  | str (s : String)
deriving DecidableEq, Repr

/-- Python equality as used by `in` and `list.remove`: ints compare to
ints, strings to strings, mixed comparisons are false. -/
def pyEq : PyVal → PyVal → Bool
  | .int a, .int b => a == b
  | .str a, .str b => a == b
  | _, _ => false

/-- Modelled from the spec: end-marker byte, fixed to 0xFF by section 6 of
the spec (opp_rs232_intf.py is not among the sources). -/
def EOM_CMD : Nat := 0xff

/-- Modelled from the spec: command byte for read-digital-inputs.  The
spec does not fix the value; only distinctness from the other command
bytes matters to any property proved here. -/
def READ_GEN2_INP_CMD : Nat := 0x02

/-- Modelled from the spec: command byte for read-matrix-inputs. -/
def READ_MATRIX_INP : Nat := 0x05

/-- Modelled from the spec: command byte for configure-individual-solenoid. -/
def CFG_IND_SOL_CMD : Nat := 0x03

/-- Modelled from the spec: command byte for set-solenoid-input-mapping. -/
def SET_SOL_INP_CMD : Nat := 0x04

/-- Modelled from the spec: flag byte composed into the configure-solenoid
command byte, marking a switch-triggered solenoid. -/
def CFG_SOL_USE_SWITCH : Nat := 0x01

/-- Modelled from the spec: flag byte for auto-clearing pulses. -/
def CFG_SOL_AUTO_CLR : Nat := 0x02

/-- Modelled from the spec: flag byte for full power, no hold register. -/
def CFG_SOL_ON_OFF : Nat := 0x04

/-- Modelled from the spec: fixed offset added to the coil channel byte by
the remove variant of set-solenoid-input-mapping. -/
def CFG_SOL_INP_REMOVE : Nat := 0x80

/-- Modelled from the spec: incandescent command byte. -/
def INCAND_CMD : Nat := 0x06

/-- Modelled from the spec: incandescent set-on-off sub-command byte. -/
def INCAND_SET_ON_OFF : Nat := 0x07

/-- Big-endian 32-bit word from four bytes, as in
`(msg[2] << 24) | (msg[3] << 16) | (msg[4] << 8) | msg[5]`. -/
def word32 (b0 b1 b2 b3 : Nat) : Nat :=
  (b0 <<< 24) ||| (b1 <<< 16) ||| (b2 <<< 8) ||| b3

/-- Channel identifier string
`opp_inp.chain_serial + '-' + opp_inp.cardNum + '-' + str(index)`. -/
def sw_num_str (chain card : String) (index : Nat) : String :=
  chain ++ "-" ++ card ++ "-" ++ Nat.repr index

/-- Inner loop of read_gen2_inp_resp (and of each bank of
read_matrix_inp_resp): walk the 32 bit positions of
`changes = oldState ^ new_state`; each set bit emits a transition,
state 1 when the bit is clear in `new_state` (active low), else 0. -/
def switch_emissions (chain card : String) (old new_state : Nat) :
    List (Nat × String) :=
  if old ^^^ new_state = 0 then []
  else
    (List.range 32).filterMap (fun index =>
      if ((1 <<< index) &&& (old ^^^ new_state)) ≠ 0 then
        if ((1 <<< index) &&& new_state) = 0 then
          some (1, sw_num_str chain card index)
        else
          some (0, sw_num_str chain card index)
      else none)

/-- Outcome of one input-read handler call: the card state after the
call, the transitions handed to the switch controller in order, the
bad-CRC counter after the call, and whether lost_synch was signalled. -/
structure InpResult where
  oldState : Nat
  emissions : List (Nat × String)
  badCRC : Nat
  lostSynch : Bool
deriving DecidableEq, Repr

/-- Outcome of a matrix input-read handler call; the 64-bit state is kept
as two 32-bit banks exactly as in OPPMatrixCard. -/
structure MatrixInpResult where
  oldState : Nat × Nat
  emissions : List (Nat × String)
  badCRC : Nat
  lostSynch : Bool
deriving DecidableEq, Repr

/-- Steady-state digital input handler read_gen2_inp_resp, for the card
the frame addresses (the dictionary lookup by address is elided: the
addressed card's chain, number and state are passed directly).  `crc`
abstracts OppRs232Intf.calc_crc8_part_msg (message, offset, length). -/
def read_gen2_inp_resp (crc : List Nat → Nat → Nat → Nat)
    (chain card : String) (old badCRC : Nat) (msg : List Nat) : InpResult :=
  if msg.length < 7 then
    ⟨old, [], badCRC, true⟩
  else if msg.getD 6 0 ≠ crc msg 0 6 then
    ⟨old, [], badCRC + 1, false⟩
  else
    let new_state := word32 (msg.getD 2 0) (msg.getD 3 0) (msg.getD 4 0) (msg.getD 5 0)
    ⟨new_state, switch_emissions chain card old new_state, badCRC, false⟩

/-- Handshake-phase digital input handler read_gen2_inp_resp_initial: a
short message raises (error); a CRC mismatch only counts; a valid read
seeds oldState without emitting transitions. -/
def read_gen2_inp_resp_initial (crc : List Nat → Nat → Nat → Nat)
    (old badCRC : Nat) (msg : List Nat) : Except String InpResult :=
  if msg.length < 7 then
    .error "Received too short initial input response"
  else if msg.getD 6 0 ≠ crc msg 0 6 then
    .ok ⟨old, [], badCRC + 1, false⟩
  else
    .ok ⟨word32 (msg.getD 2 0) (msg.getD 3 0) (msg.getD 4 0) (msg.getD 5 0),
         [], badCRC, false⟩

/-- Steady-state matrix input handler read_matrix_inp_resp.  Note that the
per-bank loop of the source builds the channel string from the bare bit
index for both banks. -/
def read_matrix_inp_resp (crc : List Nat → Nat → Nat → Nat)
    (chain card : String) (old : Nat × Nat) (badCRC : Nat)
    (msg : List Nat) : MatrixInpResult :=
  if msg.length < 11 then
    ⟨old, [], badCRC, true⟩
  else if msg.getD 10 0 ≠ crc msg 0 10 then
    ⟨old, [], badCRC + 1, false⟩
  else
    let new0 := word32 (msg.getD 2 0) (msg.getD 3 0) (msg.getD 4 0) (msg.getD 5 0)
    let new1 := word32 (msg.getD 6 0) (msg.getD 7 0) (msg.getD 8 0) (msg.getD 9 0)
    ⟨(new0, new1),
     switch_emissions chain card old.1 new0 ++ switch_emissions chain card old.2 new1,
     badCRC, false⟩

/-- Handshake-phase matrix input handler read_matrix_inp_resp_initial. -/
def read_matrix_inp_resp_initial (crc : List Nat → Nat → Nat → Nat)
    (old : Nat × Nat) (badCRC : Nat) (msg : List Nat) :
    Except String MatrixInpResult :=
  if msg.length < 11 then
    .error "Received too short initial input response"
  else if msg.getD 10 0 ≠ crc msg 0 10 then
    .ok ⟨old, [], badCRC + 1, false⟩
  else
    .ok ⟨(word32 (msg.getD 2 0) (msg.getD 3 0) (msg.getD 4 0) (msg.getD 5 0),
          word32 (msg.getD 6 0) (msg.getD 7 0) (msg.getD 8 0) (msg.getD 9 0)),
         [], badCRC, false⟩

/-- Portion of get_hw_switch_states contributed by one digital input
card: for each of 32 bit positions with the mask bit set, report 1 when
the oldState bit is clear (active low exposed active high). -/
def hw_switch_states_digital (chain card : String) (mask old : Nat) :
    List (String × Nat) :=
  (List.range 32).filterMap (fun index =>
    if ((1 <<< index) &&& mask) ≠ 0 then
      some (sw_num_str chain card index,
            if ((1 <<< index) &&& old) = 0 then 1 else 0)
    else none)

/-- Portion of get_hw_switch_states contributed by one matrix card: for
each of 64 bit positions, the bank is `(index & 0x20) >> 5`, the bit
`index & 0x1f`, and the key uses `str(index + 32)`. -/
def hw_switch_states_matrix (chain card : String) (old : Nat × Nat) :
    List (String × Nat) :=
  (List.range 64).map (fun index =>
    ((sw_num_str chain card (index + 32)),
     if ((1 <<< (index &&& 0x1f)) &&&
         (if (index &&& 0x20) >>> 5 = 0 then old.1 else old.2)) = 0
     then 1 else 0))

/-- Modelled from the spec: the per-solenoid runtime configuration fields
that opp.py reads (opp_coil.py and the generic coil config are not among
the sources).  Python truthiness is mirrored by letting 0 stand for both
an absent (None) and a zero numeric setting, which the source treats
identically (`if coil.config[...]:`). -/
structure CoilConfig where
  hold_power16 : Nat
  hold_power : Nat
  allow_enable : Bool
  recycle : Bool
  recycle_factor : Nat
  pulse_ms : Nat
deriving DecidableEq, Repr

/-- Hold value computation get_hold_value, translated from the source. -/
def get_hold_value (c : CoilConfig) : Nat :=
  if c.hold_power16 ≠ 0 then c.hold_power16
  else if c.hold_power ≠ 0 then
    if 8 ≤ c.hold_power then 16
    else c.hold_power * 2
  else if c.allow_enable then 16
  else 0

/-- Priority rule for the hold value as the claim words it (fine-grained
setting if present; else coarse setting doubled with 8 and above mapping
to 16; else 16 on allow-enable; else 0), stated for comparison with
get_hold_value. -/
def hold_value_spec (c : CoilConfig) : Nat :=
  if c.hold_power16 ≠ 0 then c.hold_power16
  else if c.hold_power ≠ 0 then
    if 8 ≤ c.hold_power then 16 else 2 * c.hold_power
  else if c.allow_enable then 16
  else 0

/-- Minimum off factor get_minimum_off_time; a recycle factor above 7 is a
fatal configuration error. -/
def get_minimum_off_time (c : CoilConfig) : Except String Nat :=
  if ¬ c.recycle then .ok 0
  else if c.recycle_factor ≠ 0 then
    if 7 < c.recycle_factor then .error "Maximum recycle_factor allowed is 7"
    else .ok c.recycle_factor
  else .ok 2

/-- Modelled from the spec: the per-driver state opp.py reads and writes
(OPPSolenoid of opp_coil.py is not among the sources).  `solenoid` is the
numeric channel, the second component of the 2-part config number the
source splits; `chain_serial` and `card` are the components of the 3-part
hw driver number; `switches` is the list the rule-setting path appends
identifier strings to. -/
structure OppDriver where
  addr : Nat
  chain_serial : String
  card : String
  solenoid : Nat
  can_be_pulsed : Bool
  use_switch : Bool
  switches : List PyVal
  config : CoilConfig
deriving DecidableEq, Repr

/-- Opening stage of reconfigure_driver (source lines choosing command
base, pulsability and hold): without hold, the auto-clear flag, a
pulsable driver and hold 0; with hold, the computed hold value, where 0
raises, and 16 and above becomes the full-power flag with hold 0 on
firmware at or above the threshold, or hold 15 below it. -/
def reconfigure_step1 (minVersion : Nat) (c : CoilConfig) (use_hold : Bool) :
    Except String (Nat × Bool × Nat) :=
  if ¬ use_hold then .ok (CFG_SOL_AUTO_CLR, true, 0)
  else
    let hold := get_hold_value c
    if hold = 0 then .error "Hold may not be 0"
    else if 16 ≤ hold then
      if 0x00020000 ≤ minVersion then .ok (CFG_SOL_ON_OFF, false, 0)
      else .ok (0, false, 15)
    else .ok (0, false, hold)

/-- Use-switch flag stage of reconfigure_driver: below the threshold the
legacy flag mirrors the driver's use_switch field; at or above it, the
flag is added when the remapped channel number, as a Python int, is a
member of the driver's switch list. -/
def reconfigure_cmd (minVersion : Nat) (d : OppDriver) (cmd0 : Nat) : Nat :=
  if minVersion < 0x00020000 ∧ d.use_switch then
    cmd0 + CFG_SOL_USE_SWITCH
  else if 0x00020000 ≤ minVersion then
    let matching_sw := ((d.solenoid &&& 0x0c) <<< 1) ||| (d.solenoid &&& 0x03)
    if d.switches.any (fun v => pyEq v (.int matching_sw)) then
      cmd0 + CFG_SOL_USE_SWITCH
    else cmd0
  else cmd0

/-- Driver reconfiguration reconfigure_driver.  `crcW` abstracts
OppRs232Intf.calc_crc8_whole_msg; `default_pulse` is the machine-wide
default_pulse_ms.  Returns the driver state after the call and the frame
transmitted.  Python mutates can_be_pulsed before the possible raise; the
embedding reports only the state of a completed call, which is all any
claim concerns. -/
def reconfigure_driver (minVersion : Nat) (crcW : List Nat → Nat)
    (default_pulse : Nat) (d : OppDriver) (use_hold : Bool) :
    Except String (OppDriver × List Nat) :=
  match reconfigure_step1 minVersion d.config use_hold with
  | .error e => .error e
  | .ok (cmd0, pulsable, hold) =>
    match get_minimum_off_time d.config with
    | .error e => .error e
    | .ok minimum_off =>
      let cmd := reconfigure_cmd minVersion d cmd0
      let pulse_len := if d.config.pulse_ms ≠ 0 then d.config.pulse_ms else default_pulse
      let body := [d.addr, CFG_IND_SOL_CMD, d.solenoid, cmd, pulse_len,
                   hold + (minimum_off <<< 4)]
      .ok ({d with can_be_pulsed := pulsable}, body ++ [crcW body, EOM_CMD])

/-- Splitting a character list at every dash, with Python split("-")
semantics: the empty input yields one empty field, adjacent dashes yield
empty fields. -/
def split_dash_chars : List Char → List (List Char)
  | [] => [[]]
  | c :: rest =>
    let r := split_dash_chars rest
    if c = '-' then [] :: r
    else (c :: r.headD []) :: r.tail

/-- Python str.split("-"). -/
def py_split_dash (s : String) : List String :=
  (split_dash_chars s.data).map (fun l => String.mk l)

/-- Decimal digit value of a character, none for a non-digit. -/
def digit_val (c : Char) : Option Nat :=
  if 48 ≤ c.toNat ∧ c.toNat ≤ 57 then some (c.toNat - 48) else none

/-- Accumulating decimal parse of a character list. -/
def py_int_go : List Char → Nat → Option Nat
  | [], acc => some acc
  | c :: rest, acc =>
    match digit_val c with
    | some d => py_int_go rest (acc * 10 + d)
    | none => none

/-- Python int(s) on a nonnegative decimal string. -/
def py_int (s : String) : Option Nat :=
  if s.data.isEmpty then none else py_int_go s.data 0

/-- Numeric third component of a 3-part identifier string, as in
`int(number.split("-")[2])`. -/
def third_num (s : String) : Nat :=
  (py_int ((py_split_dash s).getD 2 "")).getD 0

/-- Switch-to-coil mapping command of _add_switch_coil_mapping: a no-op
list on firmware below the threshold, else one frame. -/
def add_switch_coil_mapping (minVersion : Nat) (crcW : List Nat → Nat)
    (switch_num : Nat) (d : OppDriver) : List (List Nat) :=
  if minVersion < 0x00020000 then []
  else
    let body := [d.addr, SET_SOL_INP_CMD, switch_num, d.solenoid]
    [body ++ [crcW body, EOM_CMD]]

/-- Mapping removal command of _remove_switch_coil_mapping. -/
def remove_switch_coil_mapping (minVersion : Nat) (crcW : List Nat → Nat)
    (switch_num : Nat) (d : OppDriver) : List (List Nat) :=
  if minVersion < 0x00020000 then []
  else
    let body := [d.addr, SET_SOL_INP_CMD, switch_num,
                 d.solenoid + CFG_SOL_INP_REMOVE]
    [body ++ [crcW body, EOM_CMD]]

/-- Modelled from the spec: the switch fields opp.py reads (opp_switch.py
is not among the sources): the 3-part identifier string and the invert
flag. -/
structure OppSwitch where
  number : String
  invert : Bool
deriving DecidableEq, Repr

/-- Board fit check _verify_coil_and_switch_fit: same chain and card on
firmware at or above the threshold; additionally the nibble-remap channel
correspondence below it. -/
def verify_coil_and_switch_fit (minVersion : Nat) (sw : OppSwitch)
    (d : OppDriver) : Except String Unit :=
  let parts := py_split_dash sw.number
  let sw_chain := parts.getD 0 ""
  let sw_card := parts.getD 1 ""
  let sw_num := (py_int (parts.getD 2 "")).getD 0
  if 0x00020000 ≤ minVersion then
    if d.chain_serial ≠ sw_chain ∨ d.card ≠ sw_card then
      .error "Invalid switch being configured for driver"
    else .ok ()
  else
    let matching_sw := ((d.solenoid &&& 0x0c) <<< 1) ||| (d.solenoid &&& 0x03)
    if d.chain_serial ≠ sw_chain ∨ d.card ≠ sw_card ∨ matching_sw ≠ sw_num then
      .error "Invalid switch being configured for driver"
    else .ok ()

/-- Rule-setting path _write_hw_rule: reject inverted switches, verify the
fit, mark use_switch, append the switch identifier string to the driver's
list, issue the mapping command and reconfigure.  Returns the driver
state after the call and the frames sent, in order. -/
def write_hw_rule (minVersion : Nat) (crcW : List Nat → Nat)
    (default_pulse : Nat) (sw : OppSwitch) (d : OppDriver) (use_hold : Bool) :
    Except String (OppDriver × List (List Nat)) :=
  if sw.invert then .error "Cannot handle inverted switches"
  else
    match verify_coil_and_switch_fit minVersion sw d with
    | .error e => .error e
    | .ok _ =>
      let d1 := {d with use_switch := true,
                        switches := d.switches ++ [PyVal.str sw.number]}
      let mapping := add_switch_coil_mapping minVersion crcW (third_num sw.number) d1
      match reconfigure_driver minVersion crcW default_pulse d1 use_hold with
      | .error e => .error e
      | .ok (d2, frame) => .ok (d2, mapping ++ [frame])

/-- Python list.remove: drop the first element equal (by Python equality)
to the given value.  The source call is guarded by the same membership
test, so the no-occurrence case never raises here. -/
def py_remove (l : List PyVal) (v : PyVal) : List PyVal :=
  match l with
  | [] => []
  | x :: xs => if pyEq x v then xs else x :: py_remove xs v

/-- Rule clearing clear_hw_rule: remove the switch from the driver's list
and issue the remove command when present; when the list has become empty
clear use_switch and reconfigure with use_hold = not can_be_pulsed.
Returns the driver state after the call and the frames sent. -/
def clear_hw_rule (minVersion : Nat) (crcW : List Nat → Nat)
    (default_pulse : Nat) (sw : OppSwitch) (d : OppDriver) :
    Except String (OppDriver × List (List Nat)) :=
  let step :=
    if d.switches.any (fun v => pyEq v (.str sw.number)) then
      let d1 := {d with switches := py_remove d.switches (.str sw.number)}
      (d1, remove_switch_coil_mapping minVersion crcW (third_num sw.number) d1)
    else (d, [])
  if step.1.switches.isEmpty then
    let d2 := {step.1 with use_switch := false}
    match reconfigure_driver minVersion crcW default_pulse d2 (! step.1.can_be_pulsed) with
    | .error e => .error e
    | .ok (d3, frame) => .ok (d3, step.2 ++ [frame])
  else
    .ok (step.1, step.2)

/-- Modelled from the spec: the incandescent card fields opp.py reads and
writes (opp_incand.py is not among the sources): address, owning chain
and the oldState/newState pair. -/
structure IncandCard where
  addr : Nat
  chain_serial : String
  oldState : Nat
  newState : Nat
deriving DecidableEq, Repr

/-- Observable events of one update_incand cycle, in program order: a
write to a card's oldState, or the send of a frame to the processor. -/
inductive IncandEvent where
  | setOld (card : Nat) (value : Nat)
  | send (card : Nat) (frame : List Nat)
deriving DecidableEq, Repr

/-- Update frame built by update_incand from a card's newState. -/
def incand_frame (crcW : List Nat → Nat) (c : IncandCard) : List Nat :=
  let body := [c.addr, INCAND_CMD, INCAND_SET_ON_OFF,
               (c.newState >>> 24) &&& 0xff, (c.newState >>> 16) &&& 0xff,
               (c.newState >>> 8) &&& 0xff, c.newState &&& 0xff]
  body ++ [crcW body]

/-- Body of update_incand from card index i on: per changed card the
source first assigns oldState = newState and then builds and sends the
frame from newState, so the setOld event precedes the send event. -/
def update_incand_go (crcW : List Nat → Nat) (i : Nat) :
    List IncandCard → List IncandCard × List IncandEvent
  | [] => ([], [])
  | c :: rest =>
    let tail := update_incand_go crcW (i + 1) rest
    if c.oldState ^^^ c.newState ≠ 0 then
      ({c with oldState := c.newState} :: tail.1,
       IncandEvent.setOld i c.newState ::
         IncandEvent.send i (incand_frame crcW c) :: tail.2)
    else
      (c :: tail.1, tail.2)

/-- One update_incand cycle over all incandescent cards. -/
def update_incand (crcW : List Nat → Nat) (cards : List IncandCard) :
    List IncandCard × List IncandEvent :=
  update_incand_go crcW 0 cards

/-- Gen2 address-marker test `(b & 0xe0) == 0x20`. -/
def is_gen2_addr (b : Nat) : Bool :=
  (b &&& 0xe0) == 0x20

/-- Outcome of one iteration of the _parse_msg loop: the desync flag, the
remaining buffer, and the records handed to process_received_message. -/
structure ParseStep where
  lostSynch : Bool
  buffer : List Nat
  dispatched : List (List Nat)
deriving DecidableEq, Repr

/-- Inner resynchronization scan of _parse_msg: discard bytes one at a
time until a Gen2 address-marker byte leads the buffer (then the flag is
cleared) or the buffer empties (the flag stays set). -/
def desync_scan : List Nat → Bool × List Nat
  | [] => (true, [])
  | b :: rest =>
    if is_gen2_addr b then (false, b :: rest)
    else desync_scan rest

/-- One iteration of the _parse_msg while-loop, entered with at least 7
buffered bytes.  List.take mirrors the Python slices, which truncate when
fewer bytes are buffered than the record length. -/
def parse_step (lost : Bool) (buf : List Nat) : ParseStep :=
  if lost then
    let scanned := desync_scan buf
    ⟨scanned.1, scanned.2, []⟩
  else if is_gen2_addr (buf.headD 0) then
    if buf.getD 1 0 = READ_GEN2_INP_CMD then
      ⟨false, buf.drop 7, [buf.take 7]⟩
    else if buf.getD 1 0 = READ_MATRIX_INP then
      ⟨false, buf.drop 11, [buf.take 11]⟩
    else
      ⟨true, buf.drop 2, []⟩
  else if buf.headD 0 = EOM_CMD then
    ⟨false, buf.drop 1, []⟩
  else
    ⟨true, buf.drop 1, []⟩

/-- Configuration state _get_dict_index consults: the chain-name map from
the config, the configured ports, and the chain serials of the live
serial connections (`list(self.serial_connections)`). -/
structure OppConfig where
  chains : List (String × String)
  ports : List String
  connSerials : List String
deriving Repr

/-- Chain-name resolution tail of _get_dict_index: an unconfigured chain
name is fatal when more than one port is configured, otherwise the single
connection's serial is substituted. -/
def resolve_chain (cfg : OppConfig) (chain_str card_str number_str : String) :
    Except String String :=
  match List.lookup chain_str cfg.chains with
  | none =>
    if 1 < cfg.ports.length then
      .error ("Chain " ++ chain_str ++ " is unconfigured")
    else
      match cfg.connSerials.head? with
      | some cs => .ok (cs ++ "-" ++ card_str ++ "-" ++ number_str)
      | none => .error "IndexError"
  | some chain_serial => .ok (chain_serial ++ "-" ++ card_str ++ "-" ++ number_str)

/-- Identifier resolution _get_dict_index: the try/except ladder of
3-part, then 2-part unpacking of split("-"); any other shape (one part,
or four and more) keeps the whole input as the channel part with card
defaulted, exactly as the source's except branches do. -/
def get_dict_index (cfg : OppConfig) (input_str : String) : Except String String :=
  let step :=
    match py_split_dash input_str with
    | [c, ca, n] => (c, ca, n)
    | [ca, n] => ("0", ca, n)
    | _ => ("0", "0", input_str)
  resolve_chain cfg step.1 step.2.1 step.2.2

/-! Helper lemmas shared across the claim theorems. -/

theorem read_gen2_inp_resp_valid (crc : List Nat → Nat → Nat → Nat)
    (chain card : String) (old badCRC : Nat) (msg : List Nat)
    (h7 : ¬ msg.length < 7) (hcrc : msg.getD 6 0 = crc msg 0 6) :
    read_gen2_inp_resp crc chain card old badCRC msg
      = ⟨word32 (msg.getD 2 0) (msg.getD 3 0) (msg.getD 4 0) (msg.getD 5 0),
         switch_emissions chain card old
           (word32 (msg.getD 2 0) (msg.getD 3 0) (msg.getD 4 0) (msg.getD 5 0)),
         badCRC, false⟩ := by
  unfold read_gen2_inp_resp
  rw [if_neg h7, if_neg (not_not_intro hcrc)]

theorem switch_emissions_self (chain card : String) (n : Nat) :
    switch_emissions chain card n n = [] := by
  unfold switch_emissions
  rw [if_pos (Nat.xor_self n)]

/-- C1: a steady-state matrix read reports a changed bit of bank 1 under
the bare bit index, exactly like the corresponding bit of bank 0, and not
under the index + 32·bank + 32 numbering get_hw_switch_states uses for
matrix cards: changing only bank-1 bit 0 (oldState banks (0,0), frame
carrying banks (0,1)) emits channel "0-0-0", the channel a bank-0 bit-0
change also emits, while get_hw_switch_states reports that physical
switch as "0-0-64" and has no key "0-0-0" at all. -/
theorem matrix_steady_state_numbering_collides :
    (read_matrix_inp_resp (fun _ _ _ => 0) "0" "0" (0, 0) 0
        [0x20, READ_MATRIX_INP, 0, 0, 0, 0, 0, 0, 0, 1, 0]).emissions = [(0, "0-0-0")]
  ∧ (read_matrix_inp_resp (fun _ _ _ => 0) "0" "0" (0, 0) 0
        [0x20, READ_MATRIX_INP, 0, 0, 0, 1, 0, 0, 0, 0, 0]).emissions = [(0, "0-0-0")]
  ∧ (hw_switch_states_matrix "0" "0" (0, 1)).contains ("0-0-64", 0) = true
  ∧ (hw_switch_states_matrix "0" "0" (0, 1)).all (fun p => p.1 != "0-0-0") = true := by
  exact ⟨by decide, by decide, by decide, by decide⟩

/-- C2: the rule-setting path records the switch as its full identifier
string, while reconfigure_driver on firmware at or above 0x00020000 tests
the integer remap of the solenoid channel for membership in that list, so
the use-switch flag is never added there: after write_hw_rule records
switch "0-0-0" for solenoid channel 0 (whose remap is 0), the
configuration frame's command byte still lacks CFG_SOL_USE_SWITCH. -/
theorem use_switch_flag_not_mirrored :
    ((write_hw_rule 0x00020000 (fun _ => 0) 10 ⟨"0-0-0", false⟩
        ⟨0x20, "0", "0", 0, true, false, [], ⟨0, 0, false, false, 0, 10⟩⟩
        false).toOption.map
      (fun r => (r.1.switches, (r.2.getD 1 []).getD 3 99 &&& CFG_SOL_USE_SWITCH)))
    = some ([PyVal.str "0-0-0"], 0)
  ∧ (((0 : Nat) &&& 0x0c) <<< 1) ||| ((0 : Nat) &&& 0x03) = 0 := by
  exact ⟨by decide, by decide⟩

/-- C3: on a validated steady-state digital read with oldState 0xFFFFFFFF
and newState 0xFFFFFFFE, exactly one transition is emitted, for channel
index 0, with logical state 1 (the cleared bit is an active-low closure),
and no other channel emits. -/
theorem digital_diff_single_transition (crc : List Nat → Nat → Nat → Nat)
    (chain card : String) (a b cb : Nat)
    (h : cb = crc [a, b, 0xff, 0xff, 0xff, 0xfe, cb] 0 6) :
    read_gen2_inp_resp crc chain card 0xffffffff 0 [a, b, 0xff, 0xff, 0xff, 0xfe, cb]
      = ⟨0xfffffffe, [(1, sw_num_str chain card 0)], 0, false⟩ := by
  rw [read_gen2_inp_resp_valid crc chain card 0xffffffff 0 _ (by simp)
        ((rfl : [a, b, 0xff, 0xff, 0xff, 0xfe, cb].getD 6 0 = cb).trans h)]
  simp only [List.getD_cons_succ, List.getD_cons_zero]
  rfl

/-- Closed witness for C3's theorem at a concrete checksum function and
frame. -/
theorem digital_diff_single_transition_witness :
    read_gen2_inp_resp (fun _ _ _ => 0) "A" "3" 0xffffffff 0
        [0x20, READ_GEN2_INP_CMD, 0xff, 0xff, 0xff, 0xfe, 0]
      = ⟨0xfffffffe, [(1, sw_num_str "A" "3" 0)], 0, false⟩ :=
  digital_diff_single_transition (fun _ _ _ => 0) "A" "3" 0x20 READ_GEN2_INP_CMD 0 rfl

/-- C4: every input-read handler (digital or matrix, initial or
steady-state), given a full-length record whose checksum byte does not
match the computed CRC, increments the bad-CRC counter, leaves oldState
untouched, emits no transition and does not signal lost synchronization
(and the initial variants do not raise). -/
theorem bad_crc_drops_frame (crc : List Nat → Nat → Nat → Nat)
    (chain card : String) (old badCRC : Nat) (mOld : Nat × Nat)
    (msg : List Nat) :
    (7 ≤ msg.length → msg.getD 6 0 ≠ crc msg 0 6 →
        read_gen2_inp_resp crc chain card old badCRC msg = ⟨old, [], badCRC + 1, false⟩
      ∧ read_gen2_inp_resp_initial crc old badCRC msg = .ok ⟨old, [], badCRC + 1, false⟩)
  ∧ (11 ≤ msg.length → msg.getD 10 0 ≠ crc msg 0 10 →
        read_matrix_inp_resp crc chain card mOld badCRC msg = ⟨mOld, [], badCRC + 1, false⟩
      ∧ read_matrix_inp_resp_initial crc mOld badCRC msg = .ok ⟨mOld, [], badCRC + 1, false⟩) := by
  constructor
  · intro hlen hcrc
    constructor
    · unfold read_gen2_inp_resp
      rw [if_neg (by omega), if_pos hcrc]
    · unfold read_gen2_inp_resp_initial
      rw [if_neg (by omega), if_pos hcrc]
  · intro hlen hcrc
    constructor
    · unfold read_matrix_inp_resp
      rw [if_neg (by omega), if_pos hcrc]
    · unfold read_matrix_inp_resp_initial
      rw [if_neg (by omega), if_pos hcrc]

/-- Closed witness for C4's theorem: an 11-byte all-zero record against a
checksum function returning 5 fails validation in all four handlers. -/
theorem bad_crc_drops_frame_witness :
    read_gen2_inp_resp (fun _ _ _ => 5) "0" "0" 7 3 [0, 0, 0, 0, 0, 0, 0, 0, 0, 0, 0]
      = ⟨7, [], 4, false⟩
  ∧ read_matrix_inp_resp (fun _ _ _ => 5) "0" "0" (7, 8) 3 [0, 0, 0, 0, 0, 0, 0, 0, 0, 0, 0]
      = ⟨(7, 8), [], 4, false⟩ :=
  ⟨((bad_crc_drops_frame (fun _ _ _ => 5) "0" "0" 7 3 (7, 8)
      [0, 0, 0, 0, 0, 0, 0, 0, 0, 0, 0]).1 (by decide) (by decide)).1,
   ((bad_crc_drops_frame (fun _ _ _ => 5) "0" "0" 7 3 (7, 8)
      [0, 0, 0, 0, 0, 0, 0, 0, 0, 0, 0]).2 (by decide) (by decide)).1⟩

/-- C9: delivering the same validated steady-state digital read twice in
a row emits transitions only the first time; the second delivery emits
none and leaves oldState equal to the frame's newState, because oldState
is set to newState unconditionally after each validated read. -/
theorem steady_read_idempotent (crc : List Nat → Nat → Nat → Nat)
    (chain card : String) (old bc1 bc2 : Nat) (msg : List Nat)
    (h7 : 7 ≤ msg.length) (hcrc : msg.getD 6 0 = crc msg 0 6) :
    (read_gen2_inp_resp crc chain card
        (read_gen2_inp_resp crc chain card old bc1 msg).oldState bc2 msg).emissions = []
  ∧ (read_gen2_inp_resp crc chain card
        (read_gen2_inp_resp crc chain card old bc1 msg).oldState bc2 msg).oldState
      = word32 (msg.getD 2 0) (msg.getD 3 0) (msg.getD 4 0) (msg.getD 5 0) := by
  rw [read_gen2_inp_resp_valid crc chain card old bc1 msg (by omega) hcrc]
  rw [read_gen2_inp_resp_valid crc chain card _ bc2 msg (by omega) hcrc]
  exact ⟨switch_emissions_self chain card _, rfl⟩

/-- Closed witness for C9's theorem at a concrete frame. -/
theorem steady_read_idempotent_witness :
    (read_gen2_inp_resp (fun _ _ _ => 0) "0" "0"
        (read_gen2_inp_resp (fun _ _ _ => 0) "0" "0" 0xffffffff 0
          [0x20, READ_GEN2_INP_CMD, 0xff, 0xff, 0xff, 0xfe, 0]).oldState 0
        [0x20, READ_GEN2_INP_CMD, 0xff, 0xff, 0xff, 0xfe, 0]).emissions = []
  ∧ (read_gen2_inp_resp (fun _ _ _ => 0) "0" "0"
        (read_gen2_inp_resp (fun _ _ _ => 0) "0" "0" 0xffffffff 0
          [0x20, READ_GEN2_INP_CMD, 0xff, 0xff, 0xff, 0xfe, 0]).oldState 0
        [0x20, READ_GEN2_INP_CMD, 0xff, 0xff, 0xff, 0xfe, 0]).oldState
      = word32 0xff 0xff 0xff 0xfe :=
  steady_read_idempotent (fun _ _ _ => 0) "0" "0" 0xffffffff 0 0
    [0x20, READ_GEN2_INP_CMD, 0xff, 0xff, 0xff, 0xfe, 0] (by decide) rfl

theorem desync_scan_eq (buf : List Nat) :
    desync_scan buf
      = ((buf.dropWhile (fun b => ! is_gen2_addr b)).isEmpty,
         buf.dropWhile (fun b => ! is_gen2_addr b)) := by
  induction buf with
  | nil => rfl
  | cons b rest ih =>
    unfold desync_scan
    by_cases h : is_gen2_addr b
    · simp [List.dropWhile_cons, h]
    · simp only [Bool.not_eq_true] at h
      simp [List.dropWhile_cons, h, ih]

/-- C8 counterexample: with exactly 7 bytes buffered and a matrix-input-
read second byte, the step does not consume an 11-byte record: the whole
7-byte remainder is handed to dispatch as one short record and the buffer
is emptied. -/
theorem parse_step_short_matrix_record :
    parse_step false [0x23, READ_MATRIX_INP, 0, 0, 0, 0, 0]
      = ⟨false, [], [[0x23, READ_MATRIX_INP, 0, 0, 0, 0, 0]]⟩
  ∧ ([[0x23, READ_MATRIX_INP, 0, 0, 0, 0, 0]].headD []).length = 7 := by
  exact ⟨by decide, by decide⟩

/-- C8 (amended): one step of the _parse_msg loop on a buffer of at least
7 bytes: while desynchronized it discards bytes until a Gen2 address-
marker byte is found, clearing the flag exactly when one exists; with a
leading Gen2-marker byte, a digital-input-read second byte consumes
exactly a 7-byte record handed to dispatch, a matrix-input-read second
byte consumes min(11, buffered) bytes handed as one record (a full
11-byte record whenever at least 11 bytes are buffered), any other second
byte discards 2 bytes and sets the desync flag; a leading end-marker byte
consumes exactly 1 byte as a no-op; any other leading byte discards 1
byte and sets the desync flag. -/
theorem parse_step_cases (lost : Bool) (buf : List Nat) (h7 : 7 ≤ buf.length) :
    (lost = true →
        parse_step lost buf
          = ⟨(buf.dropWhile (fun b => ! is_gen2_addr b)).isEmpty,
             buf.dropWhile (fun b => ! is_gen2_addr b), []⟩
      ∧ ((parse_step lost buf).lostSynch = false ↔ ∃ b ∈ buf, is_gen2_addr b))
  ∧ (lost = false → is_gen2_addr (buf.headD 0) = true →
      buf.getD 1 0 = READ_GEN2_INP_CMD →
        parse_step lost buf = ⟨false, buf.drop 7, [buf.take 7]⟩
      ∧ (buf.take 7).length = 7)
  ∧ (lost = false → is_gen2_addr (buf.headD 0) = true →
      buf.getD 1 0 = READ_MATRIX_INP →
        parse_step lost buf = ⟨false, buf.drop 11, [buf.take 11]⟩
      ∧ (buf.take 11).length = min 11 buf.length)
  ∧ (lost = false → is_gen2_addr (buf.headD 0) = true →
      buf.getD 1 0 ≠ READ_GEN2_INP_CMD → buf.getD 1 0 ≠ READ_MATRIX_INP →
        parse_step lost buf = ⟨true, buf.drop 2, []⟩)
  ∧ (lost = false → is_gen2_addr (buf.headD 0) = false → buf.headD 0 = EOM_CMD →
        parse_step lost buf = ⟨false, buf.drop 1, []⟩)
  ∧ (lost = false → is_gen2_addr (buf.headD 0) = false → buf.headD 0 ≠ EOM_CMD →
        parse_step lost buf = ⟨true, buf.drop 1, []⟩) := by
  refine ⟨?_, ?_, ?_, ?_, ?_, ?_⟩
  · intro hl
    subst hl
    have hs : parse_step true buf
        = ⟨(buf.dropWhile (fun b => ! is_gen2_addr b)).isEmpty,
           buf.dropWhile (fun b => ! is_gen2_addr b), []⟩ := by
      unfold parse_step
      rw [if_pos rfl, desync_scan_eq]
    refine ⟨hs, ?_⟩
    rw [hs]
    show (buf.dropWhile (fun b => ! is_gen2_addr b)).isEmpty = false ↔ _
    constructor
    · intro hne
      have hne2 : buf.dropWhile (fun b => ! is_gen2_addr b) ≠ [] := by
        simpa [List.isEmpty_iff] using hne
      have hnall := mt List.dropWhile_eq_nil_iff.mpr hne2
      push_neg at hnall
      obtain ⟨x, hx, hpx⟩ := hnall
      exact ⟨x, hx, by simpa using hpx⟩
    · rintro ⟨b, hb, hgb⟩
      have hne2 : buf.dropWhile (fun x => ! is_gen2_addr x) ≠ [] := by
        intro hnil
        have hall := List.dropWhile_eq_nil_iff.mp hnil b hb
        simp [hgb] at hall
      simpa [List.isEmpty_iff] using hne2
  · intro hl hg hcmd
    subst hl
    constructor
    · unfold parse_step
      rw [if_neg (by simp), if_pos hg, if_pos hcmd]
    · simp only [List.length_take]
      omega
  · intro hl hg hcmd
    subst hl
    constructor
    · unfold parse_step
      rw [if_neg (by simp), if_pos hg,
          if_neg (fun hc => by rw [hcmd] at hc; exact absurd hc (by decide)),
          if_pos hcmd]
    · simp only [List.length_take]
  · intro hl hg hcmd1 hcmd2
    subst hl
    unfold parse_step
    rw [if_neg (by simp), if_pos hg, if_neg hcmd1, if_neg hcmd2]
  · intro hl hg heq
    subst hl
    unfold parse_step
    rw [if_neg (by simp), if_neg (by rw [hg]; exact Bool.false_ne_true), if_pos heq]
  · intro hl hg hne
    subst hl
    unfold parse_step
    rw [if_neg (by simp), if_neg (by rw [hg]; exact Bool.false_ne_true), if_neg hne]

/-- Closed witness for C8's theorem: a 7-byte digital-read record is
consumed whole, and an 8-byte buffer with an unknown second byte drops 2
bytes and desynchronizes. -/
theorem parse_step_cases_witness :
    (parse_step false [0x20, READ_GEN2_INP_CMD, 0, 0, 0, 0, 0]
        = ⟨false, [0x20, READ_GEN2_INP_CMD, 0, 0, 0, 0, 0].drop 7,
           [[0x20, READ_GEN2_INP_CMD, 0, 0, 0, 0, 0].take 7]⟩
      ∧ ([0x20, READ_GEN2_INP_CMD, 0, 0, 0, 0, 0].take 7).length = 7)
  ∧ parse_step false [0x20, 0x77, 0, 0, 0, 0, 0, 0]
      = ⟨true, [0x20, 0x77, 0, 0, 0, 0, 0, 0].drop 2, []⟩ :=
  ⟨(parse_step_cases false [0x20, READ_GEN2_INP_CMD, 0, 0, 0, 0, 0]
      (by decide)).2.1 rfl (by decide) rfl,
   (parse_step_cases false [0x20, 0x77, 0, 0, 0, 0, 0, 0]
      (by decide)).2.2.2.1 rfl (by decide) (by decide) (by decide)⟩

theorem update_incand_go_eq (crcW : List Nat → Nat) (i : Nat)
    (cards : List IncandCard) :
    update_incand_go crcW i cards
      = (cards.map (fun c => {c with oldState := c.newState}),
         ((cards.enumFrom i).filter (fun p => p.2.oldState != p.2.newState)).flatMap
           (fun p => [IncandEvent.setOld p.1 p.2.newState,
                      IncandEvent.send p.1 (incand_frame crcW p.2)])) := by
  induction cards generalizing i with
  | nil => rfl
  | cons c rest ih =>
    unfold update_incand_go
    rw [ih (i + 1)]
    by_cases h : c.oldState = c.newState
    · have hc : ({c with oldState := c.newState} : IncandCard) = c := by
        cases c
        simp_all
      rw [if_neg (by simp [h])]
      simp [List.enumFrom_cons, List.filter_cons, h, hc]
    · rw [if_pos (by simpa [Nat.xor_eq_zero] using h)]
      simp [List.enumFrom_cons, List.filter_cons, h]

/-- C6 counterexample: for a card with oldState 0 and newState 1, the
first observable event of the update cycle is the write of oldState, and
the send of the frame built from newState comes second: oldState is
updated before, not after, the frame is transmitted. -/
theorem incand_oldState_set_before_send :
    ((update_incand (fun _ => 0) [⟨0x20, "0", 0, 1⟩]).2.headD
        (IncandEvent.send 0 [])) = IncandEvent.setOld 0 1
  ∧ (update_incand (fun _ => 0) [⟨0x20, "0", 0, 1⟩]).2
      = [IncandEvent.setOld 0 1,
         IncandEvent.send 0 (incand_frame (fun _ => 0) ⟨0x20, "0", 0, 1⟩)] := by
  exact ⟨by decide, by decide⟩

/-- C6 (amended): each update_incand cycle sends an update frame for
exactly the cards whose newState differs from oldState (built from
newState), with each card's oldState write immediately preceding its send
within the same uninterruptible cycle (rather than after transmission),
and afterwards every card's oldState equals its newState. -/
theorem update_incand_cycle (crcW : List Nat → Nat) (cards : List IncandCard) :
    (update_incand crcW cards).1
      = cards.map (fun c => {c with oldState := c.newState})
  ∧ (update_incand crcW cards).2
      = ((cards.enum.filter (fun p => p.2.oldState != p.2.newState)).flatMap
          (fun p => [IncandEvent.setOld p.1 p.2.newState,
                     IncandEvent.send p.1 (incand_frame crcW p.2)])) := by
  rw [update_incand, update_incand_go_eq]
  exact ⟨rfl, rfl⟩

theorem reconfigure_driver_fields (minV dp : Nat) (crcW : List Nat → Nat)
    (d : OppDriver) (uh : Bool) (p : OppDriver × List Nat)
    (h : reconfigure_driver minV crcW dp d uh = .ok p) :
    p.1.use_switch = d.use_switch ∧ p.1.switches = d.switches ∧
    p.1.config = d.config := by
  unfold reconfigure_driver at h
  cases hstep : reconfigure_step1 minV d.config uh with
  | error e =>
    rw [hstep] at h
    exact absurd h (by simp)
  | ok t =>
    obtain ⟨cmd0, pulsable, hold⟩ := t
    rw [hstep] at h
    cases hmo2 : get_minimum_off_time d.config with
    | error e =>
      rw [hmo2] at h
      exact absurd h (by simp)
    | ok mo2 =>
      rw [hmo2] at h
      simp only [Except.ok.injEq] at h
      subst h
      exact ⟨rfl, rfl, rfl⟩

/-- C5 counterexample: a driver that previously had a hold configured
(can_be_pulsed false, hold_power16 = 10) and whose last mapped switch
"0-0-0" is cleared is NOT reconfigured back to the pulsable state: after
clear_hw_rule, can_be_pulsed is still false, the configuration frame's
command byte lacks the auto-clear flag, and its hold nibble is 10, not
0. -/
theorem clear_hw_rule_keeps_hold :
    ((clear_hw_rule 0x00020000 (fun _ => 0) 10 ⟨"0-0-0", false⟩
        ⟨0x20, "0", "0", 0, false, true, [PyVal.str "0-0-0"],
         ⟨10, 0, false, false, 0, 10⟩⟩).toOption.map
      (fun r => (r.1.use_switch, r.1.can_be_pulsed,
                 (r.2.getD 1 []).getD 3 99 &&& CFG_SOL_AUTO_CLR,
                 (r.2.getD 1 []).getD 5 99 % 16)))
    = some (false, false, 0, 10) := by
  decide

/-- C5 (amended): when clear_hw_rule empties the driver's recorded switch
mapping, the driver's use_switch flag becomes false and its switch list
empty, and the driver is reconfigured with use_hold = not can_be_pulsed;
in particular, when the driver was in the pulsable state (can_be_pulsed
true) the configuration frame sent carries hold 0 with the auto-clear
flag set and can_be_pulsed stays true.  (When the driver previously had a
hold configured, the hold configuration is preserved instead, as the
counterexample shows.) -/
theorem clear_hw_rule_empty_mapping (minV dp : Nat) (crcW : List Nat → Nat)
    (sw : OppSwitch) (d : OppDriver) (mo : Nat)
    (h1 : d.switches = [PyVal.str sw.number])
    (hmo : get_minimum_off_time d.config = .ok mo) :
    (∀ r, clear_hw_rule minV crcW dp sw d = .ok r →
        r.1.use_switch = false ∧ r.1.switches = [])
  ∧ (d.can_be_pulsed = true →
      ∃ r, clear_hw_rule minV crcW dp sw d = .ok r
        ∧ r.1.can_be_pulsed = true
        ∧ (r.2.getLastD []).getD 3 99 = CFG_SOL_AUTO_CLR
        ∧ (r.2.getLastD []).getD 5 99 % 16 = 0) := by
  have hmem : (d.switches.any (fun v => pyEq v (.str sw.number))) = true := by
    rw [h1]
    simp [pyEq]
  have hrem : py_remove d.switches (.str sw.number) = [] := by
    rw [h1]
    simp [py_remove, pyEq]
  constructor
  · intro r hr
    unfold clear_hw_rule at hr
    rw [if_pos hmem] at hr
    simp only [hrem] at hr
    rw [if_pos (show (([] : List PyVal)).isEmpty = true from rfl)] at hr
    cases hrec : reconfigure_driver minV crcW dp
        {d with use_switch := false, switches := ([] : List PyVal)}
        (! d.can_be_pulsed) with
    | error e =>
      rw [hrec] at hr
      exact absurd hr (by simp)
    | ok q =>
      rw [hrec] at hr
      simp only [Except.ok.injEq] at hr
      subst hr
      have hf := reconfigure_driver_fields _ _ _ _ _ _ hrec
      exact ⟨hf.1, hf.2.1⟩
  · intro hcb
    unfold clear_hw_rule
    rw [if_pos hmem]
    simp only [hrem]
    rw [if_pos (show (([] : List PyVal)).isEmpty = true from rfl)]
    have hstep : reconfigure_step1 minV d.config false
        = .ok (CFG_SOL_AUTO_CLR, true, 0) := by
      unfold reconfigure_step1
      rw [if_pos (by simp)]
    have hcmd : ∀ cb : Bool, reconfigure_cmd minV
        {d with use_switch := false, switches := ([] : List PyVal),
                can_be_pulsed := cb}
        CFG_SOL_AUTO_CLR = CFG_SOL_AUTO_CLR := by
      intro cb
      unfold reconfigure_cmd
      by_cases hv : 0x00020000 ≤ minV
      · rw [if_neg (by simp), if_pos hv, if_neg (by simp)]
      · rw [if_neg (by simp), if_neg hv]
    have hrec : reconfigure_driver minV crcW dp
        {d with use_switch := false, switches := ([] : List PyVal)}
        (! d.can_be_pulsed)
        = .ok ({d with use_switch := false, switches := ([] : List PyVal),
                       can_be_pulsed := true},
               [d.addr, CFG_IND_SOL_CMD, d.solenoid, CFG_SOL_AUTO_CLR,
                (if d.config.pulse_ms ≠ 0 then d.config.pulse_ms else dp),
                0 + (mo <<< 4)]
               ++ [crcW [d.addr, CFG_IND_SOL_CMD, d.solenoid, CFG_SOL_AUTO_CLR,
                    (if d.config.pulse_ms ≠ 0 then d.config.pulse_ms else dp),
                    0 + (mo <<< 4)], EOM_CMD]) := by
      rw [hcb, Bool.not_true]
      unfold reconfigure_driver
      dsimp only
      rw [hstep, hmo]
      dsimp only
      rw [hcmd true]
    rw [hrec]
    have hlast : ((remove_switch_coil_mapping minV crcW (third_num sw.number)
          {d with switches := ([] : List PyVal)})
        ++ [[d.addr, CFG_IND_SOL_CMD, d.solenoid, CFG_SOL_AUTO_CLR,
             (if d.config.pulse_ms ≠ 0 then d.config.pulse_ms else dp),
             0 + (mo <<< 4)]
            ++ [crcW [d.addr, CFG_IND_SOL_CMD, d.solenoid, CFG_SOL_AUTO_CLR,
                 (if d.config.pulse_ms ≠ 0 then d.config.pulse_ms else dp),
                 0 + (mo <<< 4)], EOM_CMD]]).getLastD []
        = [d.addr, CFG_IND_SOL_CMD, d.solenoid, CFG_SOL_AUTO_CLR,
           (if d.config.pulse_ms ≠ 0 then d.config.pulse_ms else dp),
           0 + (mo <<< 4)]
          ++ [crcW [d.addr, CFG_IND_SOL_CMD, d.solenoid, CFG_SOL_AUTO_CLR,
               (if d.config.pulse_ms ≠ 0 then d.config.pulse_ms else dp),
               0 + (mo <<< 4)], EOM_CMD] := by
      simp
    refine ⟨_, rfl, rfl, ?_, ?_⟩
    · rw [hlast]
      rfl
    · rw [hlast]
      show (0 + (mo <<< 4)) % 16 = 0
      simp [Nat.shiftLeft_eq, Nat.mul_mod_left]

/-- Closed witness for C5's theorem at a concrete pulsable driver whose
only mapped switch is cleared. -/
theorem clear_hw_rule_empty_mapping_witness :
    ∃ r, clear_hw_rule 0x00020000 (fun _ => 0) 10 ⟨"0-0-0", false⟩
        ⟨0x20, "0", "0", 0, true, true, [PyVal.str "0-0-0"],
         ⟨0, 0, false, false, 0, 10⟩⟩ = .ok r
      ∧ r.1.can_be_pulsed = true
      ∧ (r.2.getLastD []).getD 3 99 = CFG_SOL_AUTO_CLR
      ∧ (r.2.getLastD []).getD 5 99 % 16 = 0 :=
  (clear_hw_rule_empty_mapping 0x00020000 10 (fun _ => 0) ⟨"0-0-0", false⟩
    ⟨0x20, "0", "0", 0, true, true, [PyVal.str "0-0-0"],
     ⟨0, 0, false, false, 0, 10⟩⟩ 0 rfl rfl).2 rfl

/-- C7: reconfigure_driver with use_hold computes the hold value by the
claimed priority rule; a computed hold of 0 is a fatal error; with hold
at least 16, firmware at or above 0x00020000 gets the full-power flag in
the command byte and hold field 0, while older firmware transmits hold
field 15. -/
theorem reconfigure_hold_policy (minV dp : Nat) (crcW : List Nat → Nat)
    (d : OppDriver) (mo : Nat)
    (hmo : get_minimum_off_time d.config = .ok mo) :
    get_hold_value d.config = hold_value_spec d.config
  ∧ (get_hold_value d.config = 0 →
      reconfigure_driver minV crcW dp d true = .error "Hold may not be 0")
  ∧ (16 ≤ get_hold_value d.config → 0x00020000 ≤ minV →
      ∃ p, reconfigure_driver minV crcW dp d true = .ok p
        ∧ (p.2.getD 3 0) &&& CFG_SOL_ON_OFF = CFG_SOL_ON_OFF
        ∧ (p.2.getD 5 0) % 16 = 0)
  ∧ (16 ≤ get_hold_value d.config → minV < 0x00020000 →
      ∃ p, reconfigure_driver minV crcW dp d true = .ok p
        ∧ (p.2.getD 5 0) % 16 = 15) := by
  refine ⟨?_, ?_, ?_, ?_⟩
  · unfold get_hold_value hold_value_spec
    by_cases h1 : d.config.hold_power16 = 0 <;>
      by_cases h2 : d.config.hold_power = 0 <;>
        simp [h1, h2, Nat.mul_comm]
  · intro h0
    have hstep : reconfigure_step1 minV d.config true
        = .error "Hold may not be 0" := by
      unfold reconfigure_step1
      rw [if_neg (by simp), if_pos h0]
    unfold reconfigure_driver
    rw [hstep]
  · intro h16 hv
    have hstep : reconfigure_step1 minV d.config true
        = .ok (CFG_SOL_ON_OFF, false, 0) := by
      unfold reconfigure_step1
      rw [if_neg (by simp), if_neg (by omega), if_pos h16, if_pos hv]
    unfold reconfigure_driver
    rw [hstep, hmo]
    dsimp only
    refine ⟨_, rfl, ?_, ?_⟩
    · show reconfigure_cmd minV d CFG_SOL_ON_OFF &&& CFG_SOL_ON_OFF = CFG_SOL_ON_OFF
      unfold reconfigure_cmd
      rw [if_neg (fun hc => absurd hc.1 (by omega)), if_pos hv]
      dsimp only
      by_cases hsw : (d.switches.any fun v =>
          pyEq v (PyVal.int ((d.solenoid &&& 12) <<< 1 ||| d.solenoid &&& 3))) = true
      · rw [if_pos hsw]
        decide
      · rw [if_neg hsw]
        decide
    · show (0 + (mo <<< 4)) % 16 = 0
      simp [Nat.shiftLeft_eq, Nat.mul_mod_left]
  · intro h16 hv
    have hstep : reconfigure_step1 minV d.config true
        = .ok (0, false, 15) := by
      unfold reconfigure_step1
      rw [if_neg (by simp), if_neg (by omega), if_pos h16, if_neg (by omega)]
    unfold reconfigure_driver
    rw [hstep, hmo]
    dsimp only
    refine ⟨_, rfl, ?_⟩
    show (15 + (mo <<< 4)) % 16 = 15
    rw [Nat.shiftLeft_eq, (by norm_num : (2 : Nat) ^ 4 = 16)]
    omega

/-- Closed witness for C7's theorem: a driver with hold_power16 = 16,
configured on firmware at the threshold and on firmware 0. -/
theorem reconfigure_hold_policy_witness :
    (∃ p, reconfigure_driver 0x00020000 (fun _ => 0) 10
        ⟨0x20, "0", "0", 0, true, false, [], ⟨16, 0, false, false, 0, 10⟩⟩ true = .ok p
      ∧ (p.2.getD 3 0) &&& CFG_SOL_ON_OFF = CFG_SOL_ON_OFF
      ∧ (p.2.getD 5 0) % 16 = 0)
  ∧ (∃ p, reconfigure_driver 0 (fun _ => 0) 10
        ⟨0x20, "0", "0", 0, true, false, [], ⟨16, 0, false, false, 0, 10⟩⟩ true = .ok p
      ∧ (p.2.getD 5 0) % 16 = 15) :=
  ⟨(reconfigure_hold_policy 0x00020000 10 (fun _ => 0)
      ⟨0x20, "0", "0", 0, true, false, [], ⟨16, 0, false, false, 0, 10⟩⟩ 0
      rfl).2.2.1 (by decide) (by decide),
   (reconfigure_hold_policy 0 10 (fun _ => 0)
      ⟨0x20, "0", "0", 0, true, false, [], ⟨16, 0, false, false, 0, 10⟩⟩ 0
      rfl).2.2.2 (by decide) (by decide)⟩

/-- C10: identifier resolution is lenient: a two-part string gets chain
defaulted to "0" and a bare string gets chain and card defaulted to "0";
an unconfigured chain name raises when more than one port is configured,
and silently substitutes the single connection's serial when exactly one
port is configured. -/
theorem dict_index_lenient_resolution (cfg : OppConfig)
    (input c ca n cs : String) :
    (py_split_dash input = [ca, n] →
        get_dict_index cfg input = resolve_chain cfg "0" ca n)
  ∧ (py_split_dash input = [input] →
        get_dict_index cfg input = resolve_chain cfg "0" "0" input)
  ∧ (List.lookup c cfg.chains = none → 1 < cfg.ports.length →
        resolve_chain cfg c ca n = .error ("Chain " ++ c ++ " is unconfigured"))
  ∧ (List.lookup c cfg.chains = none → cfg.ports.length = 1 →
        cfg.connSerials = [cs] →
        resolve_chain cfg c ca n = .ok (cs ++ "-" ++ ca ++ "-" ++ n)) := by
  refine ⟨?_, ?_, ?_, ?_⟩
  · intro hsplit
    unfold get_dict_index
    rw [hsplit]
  · intro hsplit
    unfold get_dict_index
    rw [hsplit]
  · intro hlk hp
    unfold resolve_chain
    rw [hlk]
    dsimp only
    rw [if_pos hp]
  · intro hlk hp hcs
    unfold resolve_chain
    rw [hlk, hcs]
    dsimp only
    rw [if_neg (by omega)]
    rfl

/-- Closed witness for C10's theorem: a two-part and a bare identifier,
an unconfigured chain with two ports, and an unconfigured chain with one
port. -/
theorem dict_index_lenient_resolution_witness :
    get_dict_index ⟨[("0", "ser0")], ["p"], ["serX"]⟩ "3-7"
      = resolve_chain ⟨[("0", "ser0")], ["p"], ["serX"]⟩ "0" "3" "7"
  ∧ get_dict_index ⟨[("0", "ser0")], ["p"], ["serX"]⟩ "7"
      = resolve_chain ⟨[("0", "ser0")], ["p"], ["serX"]⟩ "0" "0" "7"
  ∧ resolve_chain ⟨[], ["p", "q"], ["serX"]⟩ "1" "2" "3"
      = .error ("Chain " ++ "1" ++ " is unconfigured")
  ∧ resolve_chain ⟨[], ["p"], ["serX"]⟩ "1" "2" "3"
      = .ok ("serX" ++ "-" ++ "2" ++ "-" ++ "3") :=
  ⟨(dict_index_lenient_resolution ⟨[("0", "ser0")], ["p"], ["serX"]⟩
      "3-7" "1" "3" "7" "serX").1 (by decide),
   (dict_index_lenient_resolution ⟨[("0", "ser0")], ["p"], ["serX"]⟩
      "7" "1" "3" "7" "serX").2.1 (by decide),
   (dict_index_lenient_resolution ⟨[], ["p", "q"], ["serX"]⟩
      "x" "1" "2" "3" "serX").2.2.1 rfl (by decide),
   (dict_index_lenient_resolution ⟨[], ["p"], ["serX"]⟩
      "x" "1" "2" "3" "serX").2.2.2 rfl rfl rfl⟩

end Opp
